import Mathlib

/-!
Verification development for the parcel-proximity aggregation and
narrative-synthesis pipeline of the absolute-BE repository.

The Python sources are embedded shallowly:

* Python dict values become the inductive type `PyVal` (None, bool, float/int
  as `ℚ`, str, list, dict).  Machine floats are modelled as exact rationals.
* A pandas/geopandas row becomes `Row`: an optional shapely geometry plus an
  attribute mapping.  The shapely geometry itself is external; it is modelled
  by its observable behaviour (`is_empty`, `.area`, centroid distance and
  geometry distance to a point), each fallible operation returning `Option`
  (`none` models a raised exception at that call site).
* The remote LLM call of `report_service.py` is external I/O; it is modelled
  by its result, an `Option String` (`none` models every failure: missing
  credential, transport error, timeout, non-success status, empty response).
* The filesystem consumed by `parcel_service.py` is modelled by the record
  `FS` of the observations the code makes of it.

Python builtins used by the code (`str()`, `float()`, `str.strip`,
`str.lower`, `json.loads`, `collections.Counter.most_common`) are modelled
by executable Lean functions following their documented behaviour on the
value domain above.
-/

/-- Model of a Python scalar/container value as stored in the dicts the code
manipulates.  Numbers (int or float) are modelled as exact rationals. -/
inductive PyVal where
  | null : PyVal
  | bool (b : Bool) : PyVal
  | num (q : ℚ) : PyVal
  | str (s : String) : PyVal
  | list (xs : List PyVal) : PyVal
  | dict (kvs : List (String × PyVal)) : PyVal

/-- Python truthiness (`bool(v)`): None/False/0/""/[]/{} are falsy. -/
def PyVal.truthy : PyVal → Bool
  | .null => false
  | .bool b => b
  | .num q => if q = 0 then false else true
  | .str s => if s.data = [] then false else true
  | .list xs => if xs.isEmpty then false else true
  | .dict kvs => if kvs.isEmpty then false else true

/-- Python `a or b`: `a` when truthy, else `b`. -/
def py_or (a b : PyVal) : PyVal := if a.truthy then a else b

/-- `dict.get(k)` with default `None`: first binding of `k`, else null. -/
def dict_get (d : List (String × PyVal)) (k : String) : PyVal :=
  match d with
  | [] => .null
  | (k2, v) :: rest => if k2 = k then v else dict_get rest k

/-- ASCII lower-casing of one character (models `str.lower` on the ASCII
tokens the code compares against). -/
def lower_char (c : Char) : Char :=
  if 'A' ≤ c ∧ c ≤ 'Z' then Char.ofNat (c.toNat + 32) else c

/-- Model of Python `str.lower()`. -/
def py_lower (s : String) : String := ⟨s.data.map lower_char⟩

/-- Whitespace stripped by Python `str.strip()` with no argument. -/
def is_py_space (c : Char) : Bool :=
  c == ' ' || c == '\t' || c == '\n' || c == '\x0d' || c == '\x0b' || c == '\x0c'

/-- Drop characters satisfying `p` from both ends of a character list. -/
def strip_both (p : Char → Bool) (cs : List Char) : List Char :=
  ((cs.dropWhile p).reverse.dropWhile p).reverse

/-- Model of Python `str.strip()`. -/
def py_strip (s : String) : String := ⟨strip_both is_py_space s.data⟩

/-- Model of Python `str.strip(chars)`. -/
def py_strip_chars (set : List Char) (s : String) : String :=
  ⟨strip_both (fun c => set.contains c) s.data⟩

/-- Model of Python `str.lstrip(chars)`. -/
def py_lstrip_chars (set : List Char) (s : String) : String :=
  ⟨s.data.dropWhile (fun c => set.contains c)⟩

/-- The backquote character (used by the fenced-code-block stripping). -/
def backquote : Char := Char.ofNat 96

/-- Decimal digits of a natural number (fuel-driven so it reduces). -/
def nat_digits : ℕ → ℕ → List Char
  | 0, _ => []
  | fuel + 1, n =>
    if n = 0 then [] else nat_digits fuel (n / 10) ++ [Char.ofNat (48 + n % 10)]

/-- Model of Python `str(n)` for a natural number. -/
def nat_str (n : ℕ) : String := if n = 0 then "0" else ⟨nat_digits (n + 1) n⟩

/-- Model of Python `str(i)` for an integer. -/
def int_str : ℤ → String
  | .ofNat n => nat_str n
  | .negSucc m => "-" ++ nat_str (m + 1)

/-- Rendering of a number for `str()`.  Integral values render like Python
ints; the repository never renders non-integral floats in the code paths
verified here, so non-integral rationals use a fraction notation as a stand-in
for Python float formatting (external builtin). -/
def num_repr (q : ℚ) : String :=
  if q.den = 1 then int_str q.num else int_str q.num ++ "/" ++ nat_str q.den

mutual
/-- Model of Python `repr` on `PyVal` (containers render their items with
`repr`, as Python does). -/
def py_repr : PyVal → String
  | .null => "None"
  | .bool true => "True"
  | .bool false => "False"
  | .num q => num_repr q
  | .str s => "\x27" ++ s ++ "\x27"
  | .list xs => "[" ++ py_repr_items xs ++ "]"
  | .dict kvs => "\x7b" ++ py_repr_pairs kvs ++ "\x7d"

def py_repr_items : List PyVal → String
  | [] => ""
  | [x] => py_repr x
  | x :: xs => py_repr x ++ ", " ++ py_repr_items xs

def py_repr_pairs : List (String × PyVal) → String
  | [] => ""
  | [(k, v)] => "\x27" ++ k ++ "\x27: " ++ py_repr v
  | (k, v) :: kvs => "\x27" ++ k ++ "\x27: " ++ py_repr v ++ ", " ++ py_repr_pairs kvs
end

/-- Model of Python `str()` on `PyVal` (differs from `repr` on strings). -/
def py_str : PyVal → String
  | .str s => s
  | v => py_repr v

/-- Python `" ".join`-style joining. -/
def py_join (sep : String) : List String → String
  | [] => ""
  | [x] => x
  | x :: xs => x ++ sep ++ py_join sep xs

/-!  ## Geometry rows

`app/api/endpoints/stations.py` and `app/services/parcel_service.py` consume
geopandas rows.  A shapely geometry is external; `Geom` records the outcomes
of the operations the code performs on it.  An `Option` result of `none`
models that operation raising. -/

/-- Observable behaviour of one shapely geometry. -/
structure Geom where
  is_empty : Bool
  /-- `geometry.area` (raw coordinate-space area); `none` models a raise. -/
  area : Option ℚ
  /-- `geometry.centroid.distance(p)` for a point `p = (x, y)`. -/
  centroid_dist : ℚ × ℚ → Option ℚ
  /-- `geometry.distance(p)` for a point `p = (x, y)`. -/
  dist : ℚ × ℚ → Option ℚ

/-- One dataframe row: optional geometry plus attribute columns. -/
structure Row where
  geometry : Option Geom
  attrs : List (String × PyVal)

/-- `row.get(k)` over the attribute columns. -/
def row_get (r : Row) (k : String) : PyVal := dict_get r.attrs k

/-! ## `stations.py`: `_classify_parcel_area`, `_extract_land_use`,
`_summarise_nearby_parcels` -/

/-- `METERS_PER_DEGREE` from `stations.py`. -/
def METERS_PER_DEGREE : ℚ := 111000

/-- `_classify_parcel_area` from `stations.py`. -/
def classify_parcel_area (area_m2 : ℚ) : String :=
  if area_m2 < 300 then "소형"
  else if area_m2 < 1000 then "중형"
  else if area_m2 < 3000 then "대형"
  else "초대형"

/-- The candidate attribute keys of `_extract_land_use`, in source order. -/
def land_use_candidate_keys : List String :=
  ["JIMOK", "JIGU", "USEDSGN", "USE", "LAND_USE", "ZONING", "지목", "용도지역"]

/-- `_extract_land_use` from `stations.py`: first truthy candidate value,
rendered with `str`. -/
def extract_land_use (r : Row) : Option String :=
  land_use_candidate_keys.findSome? fun k =>
    let v := row_get r k
    if v.truthy then some (py_str v) else none

/-- Insertion-ordered counter increment (`collections.Counter` update). -/
def counter_add (c : List (String × ℕ)) (k : String) : List (String × ℕ) :=
  match c with
  | [] => [(k, 1)]
  | (k2, n) :: rest =>
    if k2 = k then (k2, n + 1) :: rest else (k2, n) :: counter_add rest k

/-- Total of all counts in a counter (`sum(counter.values())`). -/
def counter_total (c : List (String × ℕ)) : ℕ := (c.map Prod.snd).sum

/-- `Counter.most_common(n)`: stable descending sort by count, first `n`.
Python's sort is stable, so ties keep first-insertion order. -/
def most_common (n : ℕ) (c : List (String × ℕ)) : List (String × ℕ) :=
  (List.insertionSort (fun a b => b.2 ≤ a.2) c).take n

/-- `closest_info` entry built in `_summarise_nearby_parcels`. -/
structure ClosestInfo where
  distance_m : ℚ
  label : PyVal

/-- The label stored for the closest parcel:
`row.get("JIBUN") or row.get("PNU") or row.get("LOTNO") or row.get("BUNJI")`. -/
def closest_label (r : Row) : PyVal :=
  py_or (row_get r "JIBUN")
    (py_or (row_get r "PNU") (py_or (row_get r "LOTNO") (row_get r "BUNJI")))

/-- `area_m2` of one geometry:
`abs(float(geometry.area)) * METERS_PER_DEGREE ** 2`, 0.0 when the
computation raises. -/
def area_m2_of (g : Geom) : ℚ :=
  match g.area with
  | some a => |a| * METERS_PER_DEGREE ^ 2
  | none => 0

/-- Loop state of the `for` loop in `_summarise_nearby_parcels`. -/
structure SumLoopState where
  bucket_counter : List (String × ℕ)
  total_area : ℚ
  land_use_counter : List (String × ℕ)
  closest_info : Option ClosestInfo

/-- The `if land_use:` counter update of the loop body. -/
def update_land_use (c : List (String × ℕ)) : Option String → List (String × ℕ)
  | some lu => if lu = "" then c else counter_add c lu
  | none => c

/-- The `closest_info` update of the loop body:
`if not closest_info or distance_m < closest_info.get("distance_m", inf)`. -/
def update_closest (cur : Option ClosestInfo) (distance_m : ℚ) (label : PyVal) :
    Option ClosestInfo :=
  match cur with
  | none => some ⟨distance_m, label⟩
  | some ci => if distance_m < ci.distance_m then some ⟨distance_m, label⟩ else some ci

/-- The `closest_info` update including the `distance_m is not None` guard
(`none` distance models the centroid computation raising). -/
def next_closest (cur : Option ClosestInfo) (dopt : Option ℚ) (label : PyVal) :
    Option ClosestInfo :=
  match dopt with
  | none => cur
  | some d => update_closest cur (d * METERS_PER_DEGREE) label

/-- One iteration of the row loop of `_summarise_nearby_parcels`, written as
the per-field effect of the loop body on its accumulators.  `pt` is
`Point(lng, lat)`. -/
def summarise_step (pt : ℚ × ℚ) (st : SumLoopState) (r : Row) : SumLoopState :=
  match r.geometry with
  | none => st
  | some g =>
    if g.is_empty then st
    else
      let area_m2 := area_m2_of g
      { bucket_counter :=
          if 0 < area_m2 then
            counter_add st.bucket_counter (classify_parcel_area area_m2)
          else st.bucket_counter
        total_area := if 0 < area_m2 then st.total_area + area_m2 else st.total_area
        land_use_counter := update_land_use st.land_use_counter (extract_land_use r)
        closest_info := next_closest st.closest_info (g.centroid_dist pt) (closest_label r) }

/-- The summary dict produced by `_summarise_nearby_parcels`. -/
structure ParcelSummary where
  total_count : ℕ
  total_area : ℚ
  average_area : ℚ
  bucket_counts : List (String × ℕ)
  top_land_uses : List (String × ℕ)
  closest : Option ClosestInfo

/-- `_summarise_nearby_parcels` from `stations.py`.  The dataframe argument
is `none` for Python `None`, otherwise its list of rows (`empty` iff `[]`). -/
def summarise_nearby_parcels (gdf : Option (List Row)) (lat lng : ℚ) :
    Option ParcelSummary :=
  match gdf with
  | none => none
  | some rows =>
    if rows.isEmpty then none
    else
      let st := rows.foldl (summarise_step (lng, lat)) ⟨[], 0, [], none⟩
      let total_count := counter_total st.bucket_counter
      if total_count = 0 then none
      else
        some
          { total_count := total_count
            total_area := st.total_area
            average_area := st.total_area / (total_count : ℚ)
            bucket_counts := st.bucket_counter
            top_land_uses := most_common 3 st.land_use_counter
            closest := st.closest_info }

/-- Valid centroid distance (in meters) contributed by a row to the
closest-parcel tracking of `_summarise_nearby_parcels`, when any. -/
def row_distance_m (pt : ℚ × ℚ) (r : Row) : Option ℚ :=
  match r.geometry with
  | none => none
  | some g =>
    if g.is_empty then none
    else (g.centroid_dist pt).map (fun d => d * METERS_PER_DEGREE)

/-- Whether a row adds to the area buckets of `_summarise_nearby_parcels`
(non-null, non-empty geometry with positive computed area). -/
def row_contributes_area (r : Row) : Bool :=
  match r.geometry with
  | none => false
  | some g => !g.is_empty && decide (0 < area_m2_of g)

/-! ## `report_service.py`: routing resolution -/

/-- Counter lookup with default 0 (`bucket_counts.get(label, 0)`). -/
def counter_get (c : List (String × ℕ)) (k : String) : ℕ :=
  match c with
  | [] => 0
  | (k2, n) :: rest => if k2 = k then n else counter_get rest k

/-- The global defaults captured in `_resolve_route`'s `defaults` dict.
`api_key` is a `PyVal` because it may be Python `None`. -/
structure RouteDefaults where
  api_key : PyVal
  base_url : String
  model : String
  timeout : ℚ
  force_json : Bool
  temperature : ℚ

/-- The `defaults` dict literal built at the top of `_resolve_route`. -/
def defaults_dict (d : RouteDefaults) : List (String × PyVal) :=
  [("api_key", d.api_key), ("base_url", .str d.base_url), ("model", .str d.model),
   ("timeout", .num d.timeout), ("force_json", .bool d.force_json),
   ("temperature", .num d.temperature)]

/-- Python `dict[k] = v`: replace the binding in place, else append. -/
def dict_set : List (String × PyVal) → String → PyVal → List (String × PyVal)
  | [], k, v => [(k, v)]
  | (k2, v2) :: rest, k, v =>
    if k2 = k then (k2, v) :: rest else (k2, v2) :: dict_set rest k v

/-- Parse of the digit run of a float literal. -/
def digits_val (ds : List Char) : ℕ :=
  ds.foldl (fun a c => a * 10 + (c.toNat - 48)) 0

/-- Exponent suffix of a Python float literal (after the mantissa). -/
def parse_exp_part (m : ℚ) (cs : List Char) : Option ℚ :=
  match cs with
  | [] => some m
  | c :: rest =>
    if c == 'e' || c == 'E' then
      let signed :=
        match rest with
        | '+' :: r2 => (false, r2)
        | '-' :: r2 => (true, r2)
        | r2 => (false, r2)
      let ds := signed.2.takeWhile Char.isDigit
      let r3 := signed.2.dropWhile Char.isDigit
      if ds.isEmpty || !r3.isEmpty then none
      else some (if signed.1 then m / 10 ^ digits_val ds else m * 10 ^ digits_val ds)
    else none

/-- Unsigned part of a Python float literal: digits, optional fraction,
optional exponent; the whole input must be consumed. -/
def parse_unsigned_float (cs : List Char) : Option ℚ :=
  let ip := cs.takeWhile Char.isDigit
  let r1 := cs.dropWhile Char.isDigit
  match r1 with
  | '.' :: r2 =>
    let fp := r2.takeWhile Char.isDigit
    let r3 := r2.dropWhile Char.isDigit
    if ip.isEmpty && fp.isEmpty then none
    else parse_exp_part ((digits_val ip : ℚ) + (digits_val fp : ℚ) / 10 ^ fp.length) r3
  | _ => if ip.isEmpty then none else parse_exp_part (digits_val ip : ℚ) r1

/-- Model of Python `float(s)` on decimal string literals (whitespace
tolerated; `inf`/`nan` spellings are not modelled). -/
def parse_float_string (s : String) : Option ℚ :=
  match strip_both is_py_space s.data with
  | '+' :: r => parse_unsigned_float r
  | '-' :: r => (parse_unsigned_float r).map Neg.neg
  | r => parse_unsigned_float r

/-- Model of Python `float(value)` as used by `_resolve_route`; `none` models
a `TypeError`/`ValueError`. -/
def py_float : PyVal → Option ℚ
  | .num q => some q
  | .bool b => some (if b then 1 else 0)
  | .str s => parse_float_string s
  | _ => none

/-- The falsy tokens of `_normalise_bool`. -/
def falsy_tokens : List String := ["false", "0", "no"]

/-- `LLMReportService._normalise_bool`. -/
def normalise_bool : PyVal → Bool
  | .bool b => b
  | .null => false
  | v => !(falsy_tokens.contains (py_lower (py_str v)))

/-- The merge loop of `_resolve_route`: fold the candidate entry over the
defaults, coercing `timeout`/`temperature` with `float` (skip on failure) and
`force_json` with `_normalise_bool`; other keys copied verbatim. -/
def merge_route (m c : List (String × PyVal)) : List (String × PyVal) :=
  c.foldl
    (fun acc kv =>
      if kv.1 = "timeout" ∨ kv.1 = "temperature" then
        match py_float kv.2 with
        | some q => dict_set acc kv.1 (.num q)
        | none => acc
      else if kv.1 = "force_json" then
        dict_set acc kv.1 (.bool (normalise_bool kv.2))
      else dict_set acc kv.1 kv.2)
    m

/-- `routing_table.get(k)` (the table maps string keys to dict entries). -/
def table_get : List (String × List (String × PyVal)) → String →
    Option (List (String × PyVal))
  | [], _ => none
  | (k2, v) :: rest, k => if k2 = k then some v else table_get rest k

/-- Python `a or b` on optional dict entries: `a` when it is a non-empty
dict, else `b`. -/
def py_or_entry (a b : Option (List (String × PyVal))) :
    Option (List (String × PyVal)) :=
  match a with
  | some d => if d.isEmpty then b else some d
  | none => b

/-- `LLMReportService._resolve_route`. -/
def resolve_route (d : RouteDefaults)
    (table : List (String × List (String × PyVal)))
    (station_id : Option ℤ) : List (String × PyVal) :=
  let defaults := defaults_dict d
  if table.isEmpty then defaults
  else
    let exact :=
      match station_id with
      | some i => table_get table (int_str i)
      | none => none
    let candidate :=
      match exact with
      | none =>
        py_or_entry (table_get table "*")
          (py_or_entry (table_get table "default") (table_get table "DEFAULT"))
      | some c => some c
    match candidate with
    | none => defaults
    | some c => if c.isEmpty then defaults else merge_route defaults c

/-! ## `report_service.py`: JSON response parsing

`json.loads` is modelled by a fuel-driven recursive-descent parser for the
JSON grammar (strict mode, as Python's default). -/

/-- JSON whitespace. -/
def json_ws (c : Char) : Bool :=
  c == ' ' || c == '\t' || c == '\n' || c == '\x0d'

/-- Skip JSON whitespace. -/
def skip_json_ws (cs : List Char) : List Char := cs.dropWhile json_ws

/-- Value of one hex digit. -/
def hex_val (c : Char) : Option ℕ :=
  if '0' ≤ c ∧ c ≤ '9' then some (c.toNat - 48)
  else if 'a' ≤ c ∧ c ≤ 'f' then some (c.toNat - 87)
  else if 'A' ≤ c ∧ c ≤ 'F' then some (c.toNat - 55)
  else none

/-- Body of a JSON string after the opening quote; returns the decoded
characters and the input after the closing quote. -/
def parse_json_string_body : ℕ → List Char → Option (List Char × List Char)
  | 0, _ => none
  | fuel + 1, cs =>
    match cs with
    | [] => none
    | '"' :: rest => some ([], rest)
    | '\\' :: esc =>
      match esc with
      | '"' :: r => (parse_json_string_body fuel r).map fun p => ('"' :: p.1, p.2)
      | '\\' :: r => (parse_json_string_body fuel r).map fun p => ('\\' :: p.1, p.2)
      | '/' :: r => (parse_json_string_body fuel r).map fun p => ('/' :: p.1, p.2)
      | 'b' :: r => (parse_json_string_body fuel r).map fun p => ('\x08' :: p.1, p.2)
      | 'f' :: r => (parse_json_string_body fuel r).map fun p => ('\x0c' :: p.1, p.2)
      | 'n' :: r => (parse_json_string_body fuel r).map fun p => ('\n' :: p.1, p.2)
      | 'r' :: r => (parse_json_string_body fuel r).map fun p => ('\x0d' :: p.1, p.2)
      | 't' :: r => (parse_json_string_body fuel r).map fun p => ('\t' :: p.1, p.2)
      | 'u' :: h1 :: h2 :: h3 :: h4 :: r =>
        match hex_val h1, hex_val h2, hex_val h3, hex_val h4 with
        | some a, some b, some c, some d =>
          (parse_json_string_body fuel r).map fun p =>
            (Char.ofNat (((a * 16 + b) * 16 + c) * 16 + d) :: p.1, p.2)
        | _, _, _, _ => none
      | _ => none
    | c :: rest =>
      if c.toNat < 32 then none
      else (parse_json_string_body fuel rest).map fun p => (c :: p.1, p.2)

/-- JSON number after an optional sign: integer part (no leading zeros),
optional fraction, optional exponent. -/
def parse_json_number_unsigned (cs : List Char) : Option (ℚ × List Char) :=
  let intpart : Option (ℕ × List Char) :=
    match cs with
    | '0' :: rest =>
      match rest with
      | c :: _ => if c.isDigit then none else some (0, rest)
      | [] => some (0, [])
    | c :: _ =>
      if c.isDigit then
        some (digits_val (cs.takeWhile Char.isDigit), cs.dropWhile Char.isDigit)
      else none
    | [] => none
  match intpart with
  | none => none
  | some (ip, r1) =>
    let fracpart : Option (ℚ × List Char) :=
      match r1 with
      | '.' :: r2 =>
        let fd := r2.takeWhile Char.isDigit
        if fd.isEmpty then none
        else some ((ip : ℚ) + (digits_val fd : ℚ) / 10 ^ fd.length,
          r2.dropWhile Char.isDigit)
      | _ => some ((ip : ℚ), r1)
    match fracpart with
    | none => none
    | some (m, r3) =>
      match r3 with
      | 'e' :: r4 | 'E' :: r4 =>
        let signed :=
          match r4 with
          | '+' :: r5 => (false, r5)
          | '-' :: r5 => (true, r5)
          | r5 => (false, r5)
        let ed := signed.2.takeWhile Char.isDigit
        if ed.isEmpty then none
        else
          some (if signed.1 then m / 10 ^ digits_val ed else m * 10 ^ digits_val ed,
            signed.2.dropWhile Char.isDigit)
      | _ => some (m, r3)

mutual
/-- One JSON value (leading whitespace skipped); returns the value and the
remaining input. -/
def parse_json_value : ℕ → List Char → Option (PyVal × List Char)
  | 0, _ => none
  | fuel + 1, cs =>
    match skip_json_ws cs with
    | 'n' :: 'u' :: 'l' :: 'l' :: rest => some (.null, rest)
    | 't' :: 'r' :: 'u' :: 'e' :: rest => some (.bool true, rest)
    | 'f' :: 'a' :: 'l' :: 's' :: 'e' :: rest => some (.bool false, rest)
    | '"' :: rest =>
      (parse_json_string_body fuel rest).map fun p => (.str ⟨p.1⟩, p.2)
    | '[' :: rest => parse_json_array fuel rest
    | '\x7b' :: rest => parse_json_object fuel rest
    | '-' :: rest =>
      (parse_json_number_unsigned rest).map fun p => (.num (-p.1), p.2)
    | rest => (parse_json_number_unsigned rest).map fun p => (.num p.1, p.2)

/-- Elements of a JSON array after `[`. -/
def parse_json_array (fuel : ℕ) (cs : List Char) : Option (PyVal × List Char) :=
  match fuel with
  | 0 => none
  | fuel + 1 =>
    match skip_json_ws cs with
    | ']' :: rest => some (.list [], rest)
    | _ => parse_json_array_items fuel cs []

/-- Comma-separated items of a non-empty JSON array. -/
def parse_json_array_items (fuel : ℕ) (cs : List Char) (acc : List PyVal) :
    Option (PyVal × List Char) :=
  match fuel with
  | 0 => none
  | fuel + 1 =>
    match parse_json_value fuel cs with
    | none => none
    | some (v, rest) =>
      match skip_json_ws rest with
      | ',' :: rest2 => parse_json_array_items fuel rest2 (acc ++ [v])
      | ']' :: rest2 => some (.list (acc ++ [v]), rest2)
      | _ => none

/-- Members of a JSON object after `{`. -/
def parse_json_object (fuel : ℕ) (cs : List Char) : Option (PyVal × List Char) :=
  match fuel with
  | 0 => none
  | fuel + 1 =>
    match skip_json_ws cs with
    | '\x7d' :: rest => some (.dict [], rest)
    | _ => parse_json_object_items fuel cs []

/-- Comma-separated `"key": value` members of a non-empty JSON object.
Duplicate keys overwrite, as Python dicts do. -/
def parse_json_object_items (fuel : ℕ) (cs : List Char)
    (acc : List (String × PyVal)) : Option (PyVal × List Char) :=
  match fuel with
  | 0 => none
  | fuel + 1 =>
    match skip_json_ws cs with
    | '"' :: rest =>
      match parse_json_string_body fuel rest with
      | none => none
      | some (key, rest2) =>
        match skip_json_ws rest2 with
        | ':' :: rest3 =>
          match parse_json_value fuel rest3 with
          | none => none
          | some (v, rest4) =>
            match skip_json_ws rest4 with
            | ',' :: rest5 => parse_json_object_items fuel rest5 (dict_set acc ⟨key⟩ v)
            | '\x7d' :: rest5 => some (.dict (dict_set acc ⟨key⟩ v), rest5)
            | _ => none
        | _ => none
    | _ => none
end

/-- Model of Python `json.loads`: parse one JSON document, requiring only
whitespace after it; `none` models `json.JSONDecodeError`. -/
def json_loads (s : String) : Option PyVal :=
  match parse_json_value (3 * s.data.length + 9) s.data with
  | some (v, rest) => if (skip_json_ws rest).isEmpty then some v else none
  | none => none

/-! ## `report_service.py`: `_parse_llm_response`, `_describe_parcel_summary`,
`_fallback_report`, `generate_report` -/

/-- The report dict `{summary, insights, actions}`. -/
structure Report where
  summary : String
  insights : List String
  actions : List String
  deriving DecidableEq

/-- `dict.get(k, default)`. -/
def dict_getD : List (String × PyVal) → String → PyVal → PyVal
  | [], _, dflt => dflt
  | (k2, v) :: rest, k, dflt => if k2 = k then v else dict_getD rest k dflt

/-- Python `for item in v`: iteration over a value; `.error` models the
`TypeError` raised for non-iterable values.  Strings iterate over their
characters and dicts over their keys, as in Python. -/
def py_iter : PyVal → Except Unit (List PyVal)
  | .list xs => .ok xs
  | .str s => .ok (s.data.map fun c => .str ⟨[c]⟩)
  | .dict kvs => .ok (kvs.map fun kv => .str kv.1)
  | _ => .error ()

/-- The first-three-characters check `cleaned.startswith("```")`. -/
def starts_with_fence (s : String) : Bool :=
  match s.data with
  | c1 :: c2 :: c3 :: _ => c1 == backquote && c2 == backquote && c3 == backquote
  | _ => false

/-- The character set of `lstrip("json")`. -/
def json_tag_chars : List Char := ['j', 's', 'o', 'n']

/-- `LLMReportService._parse_llm_response`.  `.ok none` means the response is
unusable (JSON error or all three fields empty); `.error` models an uncaught
exception (`.get` on a non-dict JSON document, or iterating a non-iterable
field). -/
def parse_llm_response (content : String) : Except Unit (Option Report) :=
  let cleaned := py_strip content
  let cleaned :=
    if starts_with_fence cleaned then
      py_strip (py_lstrip_chars json_tag_chars (py_strip_chars [backquote] cleaned))
    else cleaned
  match json_loads cleaned with
  | none => .ok none
  | some (.dict kvs) =>
    let summary := py_strip (py_str (dict_getD kvs "summary" (.str "")))
    match py_iter (dict_getD kvs "insights" (.list [])) with
    | .error e => .error e
    | .ok ins =>
      match py_iter (dict_getD kvs "actions" (.list [])) with
      | .error e => .error e
      | .ok acts =>
        let insights :=
          (ins.map fun it => py_strip (py_str it)).filter
            fun s => if s = "" then false else true
        let actions :=
          (acts.map fun it => py_strip (py_str it)).filter
            fun s => if s = "" then false else true
        if summary = "" ∧ insights = [] ∧ actions = [] then .ok none
        else .ok (some ⟨summary, insights, actions⟩)
  | some _ => .error ()

/-- Round-half-even to an integer (Python's float formatting with `.0f`). -/
def round_half_even (q : ℚ) : ℤ :=
  let n := Rat.floor q
  let r := q - n
  if r < 1 / 2 then n else if 1 / 2 < r then n + 1 else if n % 2 = 0 then n else n + 1

/-- Model of the f-string format `format(x, ".0f")`. -/
def format_f0 (q : ℚ) : String := int_str (round_half_even q)

/-- `LLMReportService._describe_parcel_summary`.  The summary argument is the
dict produced by `_summarise_nearby_parcels` (or Python `None`). -/
def describe_parcel_summary : Option ParcelSummary → Option String
  | none => none
  | some ps =>
    if ps.total_count = 0 then none
    else
      let p1 := "반경 300m 내 필지 " ++ nat_str ps.total_count ++ "개, 평균 면적 약 "
        ++ format_f0 ps.average_area ++ "㎡가 확인됩니다."
      let small := counter_get ps.bucket_counts "소형"
      let medium := counter_get ps.bucket_counts "중형"
      let large := counter_get ps.bucket_counts "대형"
      let xlarge := counter_get ps.bucket_counts "초대형"
      let bits :=
        (if small ≠ 0 then ["소형 " ++ nat_str small ++ "개"] else []) ++
        (if medium ≠ 0 then ["중형 " ++ nat_str medium ++ "개"] else []) ++
        (if large ≠ 0 then ["대형 " ++ nat_str large ++ "개"] else []) ++
        (if xlarge ≠ 0 then ["초대형 " ++ nat_str xlarge ++ "개"] else [])
      let dist_phrase :=
        if bits.isEmpty then []
        else ["면적 분포는 " ++ py_join ", " bits ++ " 수준입니다."]
      let use_phrase :=
        match ps.top_land_uses with
        | [] => []
        | (use, _) :: _ =>
          if use = "" then []
          else ["주요 지목은 \x27" ++ use ++ "\x27 계열이 두드러집니다."]
      let closest_phrase :=
        match ps.closest with
        | none => []
        | some ci =>
          if ci.distance_m = 0 then []
          else
            ["지도 중심과 약 " ++ format_f0 ci.distance_m ++ "m 거리에 위치한 "
              ++ py_str (py_or ci.label (.str "인접 필지"))
              ++ "가 핵심 앵커로 활용될 수 있습니다."]
      some (py_join " " (p1 :: (dist_phrase ++ use_phrase ++ closest_phrase)))

/-- `LLMReportService._fallback_report`: the deterministic offline report. -/
def fallback_report (station : List (String × PyVal))
    (recommendations : List (List (String × PyVal)))
    (parcel_summary : Option ParcelSummary) : Report :=
  let name := py_or (dict_get station "상호")
    (py_or (dict_get station "name") (.str "해당 주유소"))
  let address := py_or (dict_get station "주소")
    (py_or (dict_get station "address") (.str "-"))
  let land_use := py_or (dict_get station "용도지역")
    (py_or (dict_get station "토지용도") (py_or (dict_get station "지목") (.str "정보 없음")))
  let area := py_or (dict_get station "대지면적")
    (py_or (dict_get station "면적") (dict_get station "AREA"))
  let p1 := py_str name ++ "(" ++ py_str address ++ ") 부지에 대한 기초 입지 진단입니다."
  let p2 := "주요 용도지역은 \x27" ++ py_str land_use
    ++ "\x27로 파악되며 주변 토지이용과의 연계를 고려해야 합니다."
  let area_part :=
    if area.truthy then ["확인된 대지 면적 정보: " ++ py_str area ++ "."] else []
  let parcel_part :=
    match describe_parcel_summary parcel_summary with
    | some ph => if ph = "" then [] else [ph]
    | none => []
  let summary_parts := p1 :: p2 :: (area_part ++ parcel_part)
  let top_insight :=
    match recommendations with
    | [] => []
    | r0 :: _ =>
      let top_type := py_or (dict_get r0 "type") (dict_get r0 "usage_type")
      if top_type.truthy then
        ["추천 데이터 상 우선 검토가 필요한 용도는 \x27" ++ py_str top_type ++ "\x27 유형입니다."]
      else []
  let insights := top_insight ++
    ["주변 상권 밀도와 교통 접근성을 정량 분석해 수요 포착 범위를 확장할 필요가 있습니다.",
     "지자체 개발계획 및 도시재생 사업과의 연계를 검토해 정책 수혜 가능성을 확보해야 합니다.",
     "기존 주유소 설비 전환 시 공사 기간·안전관리·환경영향을 체계적으로 관리할 필요가 있습니다."]
  let actions :=
    ["현장 실사를 통해 용도지역·지구단위계획 등 인허가 요건을 세부 확인합니다.",
     "추천 활용 방안 대비 수익성·투자비·수요를 시나리오별로 비교 분석합니다.",
     "지자체 및 인근 이해관계자와의 협력 방안을 마련해 추진 동력을 확보합니다."]
  ⟨py_join " " summary_parts, insights, actions⟩

/-- `LLMReportService.generate_report`.  The remote call `_request_llm` is
external I/O and is modelled by its outcome `llm_response : Option String`
(`none` = any failure: missing credential, transport error, timeout,
non-success status, empty/blank content).  `.error` models an uncaught
exception escaping `_parse_llm_response`. -/
def generate_report (station : List (String × PyVal))
    (recommendations : List (List (String × PyVal)))
    (parcel_summary : Option ParcelSummary)
    (llm_response : Option String) : Except Unit Report :=
  match llm_response with
  | none => .ok (fallback_report station recommendations parcel_summary)
  | some content =>
    if content = "" then .ok (fallback_report station recommendations parcel_summary)
    else
      match parse_llm_response content with
      | .error e => .error e
      | .ok (some parsed) => .ok parsed
      | .ok none => .ok (fallback_report station recommendations parcel_summary)

/-! ## `parcel_service.py`: `ParcelService`

The filesystem and geopandas loader are external; `FS` records the
observations the service makes of them.  `read_shp` models
`gpd.read_file(...)` followed by `to_crs(epsg=4326)`, returning the rows or
the raised exception's message. -/

/-- External filesystem/loader as observed by `ParcelService`. -/
structure FS where
  /-- `self.base_dir.exists()`. -/
  base_dir_exists : Bool
  /-- `sorted(self.base_dir.iterdir())`, as entry names. -/
  entries : List String
  /-- `entry.is_dir()`. -/
  is_dir : String → Bool
  /-- `(base_dir / code).exists() and (base_dir / code).is_dir()`. -/
  folder_ok : String → Bool
  /-- `os.listdir(base_dir / code)`. -/
  listdir : String → List String
  /-- `gpd.read_file` + `to_crs` on a shp file of a region folder. -/
  read_shp : String → String → Except String (List Row)

/-- Mutable state of a `ParcelService` instance. -/
structure ParcelServiceState where
  base_dir : String
  cache : List (String × List Row)
  is_loaded_flag : Bool
  last_error : Option String

/-- `ParcelService.is_loaded`. -/
def is_loaded (st : ParcelServiceState) : Bool :=
  st.is_loaded_flag && !st.cache.isEmpty

/-- `ParcelService._record_error`. -/
def record_error (st : ParcelServiceState) (msg : String) : ParcelServiceState :=
  { st with last_error := some msg }

/-- Suffix check for `f.endswith(".shp")`. -/
def ends_with_shp (f : String) : Bool :=
  List.isPrefixOf ['p', 'h', 's', '.'] f.data.reverse

/-- `ParcelService.load_parcels`: returns the updated state and either the
loaded dataframe or the raised exception's message. -/
def load_parcels (fs : FS) (st : ParcelServiceState) (sidocode : String) :
    ParcelServiceState × Except String (List Row) :=
  match List.lookup sidocode st.cache with
  | some gdf => (st, .ok gdf)
  | none =>
    let folder := st.base_dir ++ "/" ++ sidocode
    if !fs.folder_ok sidocode then
      (st, .error ("지적도 디렉터리를 찾을 수 없습니다: " ++ folder))
    else
      match (fs.listdir sidocode).filter ends_with_shp with
      | [] => (st, .error ("SHP 파일이 존재하지 않습니다: " ++ folder))
      | f :: _ =>
        match fs.read_shp sidocode f with
        | .error e => (st, .error e)
        | .ok gdf =>
          let st1 := { st with cache := st.cache ++ [(sidocode, gdf)] }
          let st2 :=
            if gdf.isEmpty then st1
            else { st1 with is_loaded_flag := true, last_error := none }
          (st2, .ok gdf)

/-- The `for entry in sorted(self.base_dir.iterdir())` loop of
`_ensure_any_dataset`. -/
def ensure_loop (fs : FS) : ParcelServiceState → List String → ParcelServiceState
  | st, [] => st
  | st, e :: rest =>
    if fs.is_dir e then
      match load_parcels fs st e with
      | (st1, .ok _) => st1
      | (st1, .error exc) =>
        ensure_loop fs (record_error st1 ("지적도 로드 실패(" ++ e ++ "): " ++ exc)) rest
    else ensure_loop fs st rest

/-- `ParcelService._ensure_any_dataset`. -/
def ensure_any_dataset (fs : FS) (st : ParcelServiceState) : ParcelServiceState :=
  if !st.cache.isEmpty then st
  else if !fs.base_dir_exists then
    record_error st ("지적도 기본 경로가 존재하지 않습니다: " ++ st.base_dir)
  else
    let st1 := ensure_loop fs st fs.entries
    if st1.cache.isEmpty then record_error st1 "사용 가능한 지적도 데이터가 없습니다."
    else st1

/-- The vectorised `gdf[gdf.geometry.distance(search_point) <= radius]`:
all-or-nothing per region; `none` models the whole operation raising. -/
def region_filter (gdf : List Row) (pt : ℚ × ℚ) (radius : ℚ) :
    Option (List Row) :=
  if gdf.all fun r => (match r.geometry with | none => none | some g => g.dist pt).isSome
  then
    some (gdf.filter fun r =>
      match r.geometry with
      | none => false
      | some g =>
        match g.dist pt with
        | some d => decide (d ≤ radius)
        | none => false)
  else none

/-- The per-region loop of `get_nearby_parcels`: collects non-empty region
results in cache order, recording a diagnostic and skipping a region whose
distance computation raises. -/
def nearby_loop (pt : ℚ × ℚ) (radius : ℚ) :
    ParcelServiceState → List (String × List Row) →
    ParcelServiceState × List (List Row)
  | st, [] => (st, [])
  | st, (code, gdf) :: rest =>
    match region_filter gdf pt radius with
    | none =>
      nearby_loop pt radius (record_error st ("필지 거리 계산 실패(" ++ code ++ ")")) rest
    | some nearby =>
      let (st1, acc) := nearby_loop pt radius st rest
      if nearby.isEmpty then (st1, acc) else (st1, nearby :: acc)

/-- `ParcelService.get_nearby_parcels`: returns the updated state and the
rows of the result dataframe (empty when no data is available). -/
def get_nearby_parcels (fs : FS) (st : ParcelServiceState)
    (lat lng radius : ℚ) : ParcelServiceState × List Row :=
  let st1 := ensure_any_dataset fs st
  if st1.cache.isEmpty then (st1, [])
  else
    let (st2, results) := nearby_loop (lng, lat) radius st1 st1.cache
    (st2, results.flatten)

/-! ## Concrete fixtures used by the example parts of the claims -/

/-- Rank of a bucket label in the ordered bucket scale. -/
def bucket_rank (s : String) : ℕ :=
  if s = "소형" then 0 else if s = "중형" then 1 else if s = "대형" then 2 else 3

/-- A row with a valid geometry of raw area 1 and a given land-use label. -/
def mk_land_row (use : String) : Row :=
  ⟨some ⟨false, some 1, fun _ => none, fun _ => none⟩, [("JIMOK", PyVal.str use)]⟩

/-- Rows realising land-use counts A:5, B:5, C:3, D:1 with A encountered
before B. -/
def c8_rows : List Row :=
  (["A", "B", "A", "B", "A", "B", "A", "B", "A", "B", "C", "C", "C", "D"]).map
    mk_land_row

/-- A row whose centroid lies at a given raw distance (degrees) with a given
lot-number label. -/
def mk_dist_row (rawdist : ℚ) (label : String) : Row :=
  ⟨some ⟨false, some 1, fun _ => some rawdist, fun _ => none⟩,
    [("JIBUN", PyVal.str label)]⟩

/-- Candidate parcel at 120 m. -/
def c9_far : Row := mk_dist_row (120 / 111000) "A"

/-- Candidate parcel at 80 m. -/
def c9_near : Row := mk_dist_row (80 / 111000) "B"

/-- First of two parcels tied at 80 m. -/
def c9_tie1 : Row := mk_dist_row (80 / 111000) "A"

/-- Second of two parcels tied at 80 m. -/
def c9_tie2 : Row := mk_dist_row (80 / 111000) "B"

/-- Rows with null and with empty geometry (no valid area). -/
def c2_rows : List Row :=
  [⟨none, []⟩, ⟨some ⟨true, none, fun _ => none, fun _ => none⟩, []⟩]

/-- The global defaults of the routing example: model "base", timeout 30. -/
def c3_defaults : RouteDefaults :=
  ⟨.null, "https://api.openai.com/v1/chat/completions", "base", 30, true, 3 / 10⟩

/-- The routing table of the example:
`{"42": {"model": "x"}, "*": {"timeout": 10}}`. -/
def c3_table : List (String × List (String × PyVal)) :=
  [("42", [("model", PyVal.str "x")]), ("*", [("timeout", PyVal.num 10)])]

/-- A routing table whose `force_json` override is an unrecognized token. -/
def c4_table : List (String × List (String × PyVal)) :=
  [("42", [("force_json", PyVal.str "maybe")])]

/-- The summary computed from `c8_rows` at the origin. -/
def c8_summary : ParcelSummary :=
  ⟨14, 14 * 12321000000, 12321000000, [("초대형", 14)],
    [("A", 5), ("B", 5), ("C", 3)], none⟩

/-- The summary computed from `[c9_far, c9_near]` at the origin. -/
def c9_pair_summary : ParcelSummary :=
  ⟨2, 2 * 12321000000, 12321000000, [("초대형", 2)], [], some ⟨80, PyVal.str "B"⟩⟩

/-- The summary computed from `[c9_tie1, c9_tie2]` at the origin. -/
def c9_tie_summary : ParcelSummary :=
  ⟨2, 2 * 12321000000, 12321000000, [("초대형", 2)], [], some ⟨80, PyVal.str "A"⟩⟩

/-- A filesystem whose base directory does not exist. -/
def fs_missing : FS :=
  ⟨false, [], fun _ => false, fun _ => false, fun _ => [], fun _ _ => .error "io"⟩

/-- A fresh `ParcelService` state (no load ever attempted). -/
def st_init : ParcelServiceState := ⟨"data/parcels", [], false, none⟩

/-- A one-row dataframe cached under region code 11. -/
def gdf_one : List Row :=
  [⟨some ⟨false, some 1, fun _ => some 1, fun _ => some 1⟩, []⟩]

/-- A service state that has successfully loaded region 11. -/
def st_loaded : ParcelServiceState := ⟨"data/parcels", [("11", gdf_one)], true, none⟩

/-- Monotonicity relation between two service states: every cached dataset is
preserved unchanged, the loaded flag is never reset, and a non-empty cache
never becomes empty. -/
def state_preserved (st st2 : ParcelServiceState) : Prop :=
  (∀ (k : String) (g : List Row),
      List.lookup k st.cache = some g → List.lookup k st2.cache = some g) ∧
  (st.is_loaded_flag = true → st2.is_loaded_flag = true) ∧
  (st.cache.isEmpty = false → st2.cache.isEmpty = false)

/-! ## Theorems -/

/-- C7: for every non-negative area, bucket classification follows the
thresholds 300 / 1000 / 3000 ㎡ with the boundary values assigned to the next
bucket up, and the assignment is monotone in the area. -/
theorem C7_bucket_classification (a : ℚ) (h : 0 ≤ a) :
    ((classify_parcel_area a = "소형" ↔ a < 300) ∧
     (classify_parcel_area a = "중형" ↔ 300 ≤ a ∧ a < 1000) ∧
     (classify_parcel_area a = "대형" ↔ 1000 ≤ a ∧ a < 3000) ∧
     (classify_parcel_area a = "초대형" ↔ 3000 ≤ a)) ∧
    ∀ b : ℚ, a ≤ b →
      bucket_rank (classify_parcel_area a) ≤ bucket_rank (classify_parcel_area b) := by
  constructor
  · unfold classify_parcel_area
    split_ifs with h1 h2 h3 <;>
      refine ⟨⟨?_, ?_⟩, ⟨?_, ?_⟩, ⟨?_, ?_⟩, ⟨?_, ?_⟩⟩ <;>
        intro hx <;>
          first
            | rfl
            | linarith
            | (exact absurd hx (by decide))
            | (constructor <;> linarith)
  · intro b hab
    unfold classify_parcel_area
    split_ifs <;> simp [bucket_rank] <;> linarith

/-- The boundary values 300, 1000, 3000 land in the next bucket up
(instances of `C7_bucket_classification`). -/
theorem C7_witness :
    classify_parcel_area (300 : ℚ) = "중형" ∧
      bucket_rank (classify_parcel_area (300 : ℚ)) ≤
        bucket_rank (classify_parcel_area (3000 : ℚ)) := by
  have h := C7_bucket_classification 300 (by norm_num)
  exact ⟨h.1.2.1.mpr (by norm_num), h.2 3000 (by norm_num)⟩

lemma step_bucket_of_no_area (pt : ℚ × ℚ) (st : SumLoopState) (r : Row)
    (h : row_contributes_area r = false) :
    (summarise_step pt st r).bucket_counter = st.bucket_counter := by
  obtain ⟨geo, attrs⟩ := r
  cases geo with
  | none => rfl
  | some g =>
    cases hge : g.is_empty with
    | true => simp [summarise_step, hge]
    | false =>
      simp only [row_contributes_area, hge, Bool.not_false, Bool.true_and,
        decide_eq_false_iff_not] at h
      simp [summarise_step, hge, h]

lemma foldl_bucket_of_no_area (pt : ℚ × ℚ) :
    ∀ (rows : List Row) (st : SumLoopState),
      (∀ r ∈ rows, row_contributes_area r = false) →
      (rows.foldl (summarise_step pt) st).bucket_counter = st.bucket_counter := by
  intro rows
  induction rows with
  | nil => intro st _; rfl
  | cons r rest ih =>
    intro st h
    rw [List.foldl_cons, ih _ (fun x hx => h x (List.mem_cons_of_mem _ hx)),
      step_bucket_of_no_area pt st r (h r (List.mem_cons_self _ _))]

/-- C2: when no record contributes a valid positive area (in particular when
every geometry is null or empty), `_summarise_nearby_parcels` returns
`None`. -/
theorem C2_no_valid_area_yields_null (rows : List Row) (lat lng : ℚ)
    (h : ∀ r ∈ rows, row_contributes_area r = false) :
    summarise_nearby_parcels (some rows) lat lng = none := by
  simp only [summarise_nearby_parcels]
  cases hrows : rows.isEmpty with
  | true => rfl
  | false =>
    simp only [Bool.false_eq_true, if_false]
    rw [foldl_bucket_of_no_area (lng, lat) rows _ h]
    simp [counter_total]

/-- `C2_no_valid_area_yields_null` at rows with null and empty geometry. -/
theorem C2_witness :
    (∀ r ∈ c2_rows, row_contributes_area r = false) ∧
      summarise_nearby_parcels (some c2_rows) 1 2 = none := by
  have hno : ∀ r ∈ c2_rows, row_contributes_area r = false := by
    intro r hr
    simp only [c2_rows, List.mem_cons, List.mem_singleton] at hr
    rcases hr with h1 | h1 | h1
    · rw [h1]; rfl
    · rw [h1]; rfl
    · exact absurd h1 (by simp)
  exact ⟨hno, C2_no_valid_area_yields_null c2_rows 1 2 hno⟩

lemma summarise_some_shape (rows : List Row) (lat lng : ℚ) (s : ParcelSummary)
    (hs : summarise_nearby_parcels (some rows) lat lng = some s) :
    s.top_land_uses =
      most_common 3
        (rows.foldl (summarise_step (lng, lat)) ⟨[], 0, [], none⟩).land_use_counter ∧
    s.closest = (rows.foldl (summarise_step (lng, lat)) ⟨[], 0, [], none⟩).closest_info := by
  simp only [summarise_nearby_parcels] at hs
  split at hs
  · exact absurd hs (by simp)
  · split at hs
    · exact absurd hs (by simp)
    · simp only [Option.some.injEq] at hs
      rw [← hs]
      exact ⟨rfl, rfl⟩

/-- C8: the `top_land_uses` of any produced summary has length at most 3 and
is sorted by descending count; on counts A:5, B:5, C:3, D:1 with A first
encountered, the result is [A, B, C] in that order. -/
theorem C8_top_land_uses :
    (∀ (rows : List Row) (lat lng : ℚ) (s : ParcelSummary),
        summarise_nearby_parcels (some rows) lat lng = some s →
          s.top_land_uses.length ≤ 3 ∧
            List.Pairwise (fun a b : String × ℕ => b.2 ≤ a.2) s.top_land_uses) ∧
      summarise_nearby_parcels (some c8_rows) 0 0 = some c8_summary := by
  constructor
  · intro rows lat lng s hs
    rw [(summarise_some_shape rows lat lng s hs).1]
    constructor
    · exact List.length_take_le 3 _
    · haveI : IsTotal (String × ℕ) (fun a b : String × ℕ => b.2 ≤ a.2) :=
        ⟨fun a b => le_total b.2 a.2⟩
      haveI : IsTrans (String × ℕ) (fun a b : String × ℕ => b.2 ≤ a.2) :=
        ⟨fun _ _ _ h1 h2 => le_trans h2 h1⟩
      exact List.Pairwise.sublist (List.take_sublist 3 _)
        (List.sorted_insertionSort _ _)
  · norm_num [summarise_nearby_parcels, c8_rows, c8_summary, mk_land_row,
      summarise_step, area_m2_of, METERS_PER_DEGREE, classify_parcel_area,
      extract_land_use, land_use_candidate_keys, row_get, dict_get, PyVal.truthy,
      py_str, py_repr, counter_add, counter_total, most_common, update_land_use,
      next_closest, closest_label, py_or, List.insertionSort, List.orderedInsert,
      List.foldl, List.findSome?, abs_of_nonneg, String.ext_iff]

/-- `C8_top_land_uses` instantiated at the concrete tie example. -/
theorem C8_witness :
    c8_summary.top_land_uses.length ≤ 3 ∧
      List.Pairwise (fun a b : String × ℕ => b.2 ≤ a.2) c8_summary.top_land_uses :=
  C8_top_land_uses.1 c8_rows 0 0 c8_summary C8_top_land_uses.2

lemma next_closest_some_le (ci : ClosestInfo) (dopt : Option ℚ) (lbl : PyVal) :
    ∃ ci2, next_closest (some ci) dopt lbl = some ci2 ∧
      ci2.distance_m ≤ ci.distance_m := by
  cases dopt with
  | none => exact ⟨ci, rfl, le_rfl⟩
  | some d =>
    by_cases hlt : d * METERS_PER_DEGREE < ci.distance_m
    · exact ⟨⟨d * METERS_PER_DEGREE, lbl⟩, by simp [next_closest, update_closest, hlt],
        le_of_lt hlt⟩
    · exact ⟨ci, by simp [next_closest, update_closest, hlt], le_rfl⟩

lemma step_closest_mono (pt : ℚ × ℚ) (st : SumLoopState) (r : Row) (ci : ClosestInfo)
    (h : st.closest_info = some ci) :
    ∃ ci2, (summarise_step pt st r).closest_info = some ci2 ∧
      ci2.distance_m ≤ ci.distance_m := by
  obtain ⟨geo, attrs⟩ := r
  cases geo with
  | none => exact ⟨ci, h, le_rfl⟩
  | some g =>
    cases hge : g.is_empty with
    | true => exact ⟨ci, by simp [summarise_step, hge, h], le_rfl⟩
    | false =>
      obtain ⟨ci2, h2, hle⟩ :=
        next_closest_some_le ci (g.centroid_dist pt) (closest_label ⟨some g, attrs⟩)
      refine ⟨ci2, ?_, hle⟩
      simp only [summarise_step, hge, Bool.false_eq_true, if_false]
      rw [h, h2]

lemma step_closest_covers (pt : ℚ × ℚ) (st : SumLoopState) (r : Row) (d : ℚ)
    (h : row_distance_m pt r = some d) :
    ∃ ci2, (summarise_step pt st r).closest_info = some ci2 ∧ ci2.distance_m ≤ d := by
  obtain ⟨geo, attrs⟩ := r
  cases geo with
  | none => exact absurd h (by simp [row_distance_m])
  | some g =>
    cases hge : g.is_empty with
    | true => exact absurd h (by simp [row_distance_m, hge])
    | false =>
      simp only [row_distance_m, hge, Bool.false_eq_true, if_false,
        Option.map_eq_some'] at h
      obtain ⟨d0, hd0, rfl⟩ := h
      simp only [summarise_step, hge, Bool.false_eq_true, if_false, next_closest, hd0]
      cases hci : st.closest_info with
      | none => exact ⟨_, rfl, le_rfl⟩
      | some ci =>
        by_cases hlt : d0 * METERS_PER_DEGREE < ci.distance_m
        · exact ⟨⟨d0 * METERS_PER_DEGREE, closest_label ⟨some g, attrs⟩⟩,
            by simp [update_closest, hlt], le_rfl⟩
        · exact ⟨ci, by simp [update_closest, hlt], le_of_not_lt hlt⟩

lemma foldl_closest_mono (pt : ℚ × ℚ) :
    ∀ (rows : List Row) (st : SumLoopState) (ci : ClosestInfo),
      st.closest_info = some ci →
      ∃ ci2, (rows.foldl (summarise_step pt) st).closest_info = some ci2 ∧
        ci2.distance_m ≤ ci.distance_m := by
  intro rows
  induction rows with
  | nil => intro st ci h; exact ⟨ci, h, le_rfl⟩
  | cons r rest ih =>
    intro st ci h
    obtain ⟨ci1, h1, hle1⟩ := step_closest_mono pt st r ci h
    obtain ⟨ci2, h2, hle2⟩ := ih (summarise_step pt st r) ci1 h1
    exact ⟨ci2, by simpa [List.foldl_cons] using h2, le_trans hle2 hle1⟩

lemma foldl_closest_min (pt : ℚ × ℚ) :
    ∀ (rows : List Row) (st : SumLoopState) (r : Row) (d : ℚ),
      r ∈ rows → row_distance_m pt r = some d →
      ∃ ci2, (rows.foldl (summarise_step pt) st).closest_info = some ci2 ∧
        ci2.distance_m ≤ d := by
  intro rows
  induction rows with
  | nil => intro st r d hr; exact absurd hr (List.not_mem_nil r)
  | cons a rest ih =>
    intro st r d hr hd
    rcases List.mem_cons.mp hr with rfl | hr2
    · obtain ⟨ci1, h1, hle1⟩ := step_closest_covers pt st r d hd
      obtain ⟨ci2, h2, hle2⟩ := foldl_closest_mono pt rest _ ci1 h1
      exact ⟨ci2, by simpa [List.foldl_cons] using h2, le_trans hle2 hle1⟩
    · obtain ⟨ci2, h2, hle2⟩ := ih (summarise_step pt st a) r d hr2 hd
      exact ⟨ci2, by simpa [List.foldl_cons] using h2, hle2⟩

/-- C9: the `closest` entry of any produced summary is a lower bound on the
centroid distance of every record with a valid geometry (first-encountered
record preferred on exact ties); concretely, parcels at 120 m and 80 m give
`closest.distance_m = 80` with the nearer parcel's label, and on an exact
80 m tie the first-encountered label is kept. -/
theorem C9_closest_selection :
    (∀ (rows : List Row) (lat lng : ℚ) (s : ParcelSummary) (ci : ClosestInfo),
        summarise_nearby_parcels (some rows) lat lng = some s →
          s.closest = some ci →
          ∀ r ∈ rows, ∀ d, row_distance_m (lng, lat) r = some d →
            ci.distance_m ≤ d) ∧
      summarise_nearby_parcels (some [c9_far, c9_near]) 0 0 = some c9_pair_summary ∧
      summarise_nearby_parcels (some [c9_tie1, c9_tie2]) 0 0 = some c9_tie_summary := by
  refine ⟨?_, ?_, ?_⟩
  · intro rows lat lng s ci hs hci r hr d hd
    have hshape := (summarise_some_shape rows lat lng s hs).2
    obtain ⟨ci2, h2, hle2⟩ := foldl_closest_min (lng, lat) rows ⟨[], 0, [], none⟩ r d hr hd
    rw [hshape, h2] at hci
    injection hci with hci
    rw [← hci]
    exact hle2
  · norm_num [summarise_nearby_parcels, c9_far, c9_near, mk_dist_row,
      summarise_step, area_m2_of, METERS_PER_DEGREE, classify_parcel_area,
      extract_land_use, land_use_candidate_keys, row_get, dict_get, PyVal.truthy,
      py_str, py_repr, counter_add, counter_total, most_common, update_land_use,
      next_closest, update_closest, closest_label, py_or, c9_pair_summary,
      List.insertionSort, List.foldl, List.findSome?, abs_of_nonneg, String.ext_iff]
  · norm_num [summarise_nearby_parcels, c9_tie1, c9_tie2, mk_dist_row,
      summarise_step, area_m2_of, METERS_PER_DEGREE, classify_parcel_area,
      extract_land_use, land_use_candidate_keys, row_get, dict_get, PyVal.truthy,
      py_str, py_repr, counter_add, counter_total, most_common, update_land_use,
      next_closest, update_closest, closest_label, py_or, c9_tie_summary,
      List.insertionSort, List.foldl, List.findSome?, abs_of_nonneg, String.ext_iff]

/-- `C9_closest_selection` applied at the concrete 120 m / 80 m pair. -/
theorem C9_witness :
    summarise_nearby_parcels (some [c9_far, c9_near]) 0 0 = some c9_pair_summary ∧
      (80 : ℚ) ≤ 120 := by
  refine ⟨C9_closest_selection.2.1, ?_⟩
  have h := C9_closest_selection.1 [c9_far, c9_near] 0 0 c9_pair_summary
    ⟨80, PyVal.str "B"⟩ C9_closest_selection.2.1 rfl c9_far (by simp) 120
    (by norm_num [row_distance_m, c9_far, mk_dist_row, METERS_PER_DEGREE])
  exact h

/-- C3: routing lookup order and shallow merge: an empty table returns the
defaults verbatim; a non-empty exact match is merged over the defaults; with
no exact match resolution proceeds exactly as with no entity id (wildcard and
default keys); and on the example table, entity 42 gets model "x" with
timeout 30 while entity 7 gets model "base" with timeout 10. -/
theorem C3_routing_resolution :
    (∀ (d : RouteDefaults) (station_id : Option ℤ),
        resolve_route d [] station_id = defaults_dict d) ∧
    (∀ (d : RouteDefaults) (table) (i : ℤ) (c),
        table_get table (int_str i) = some c → c ≠ [] →
          resolve_route d table (some i) = merge_route (defaults_dict d) c) ∧
    (∀ (d : RouteDefaults) (table) (i : ℤ),
        table_get table (int_str i) = none →
          resolve_route d table (some i) = resolve_route d table none) ∧
    (dict_get (resolve_route c3_defaults c3_table (some 42)) "model" = PyVal.str "x" ∧
      dict_get (resolve_route c3_defaults c3_table (some 42)) "timeout" = PyVal.num 30) ∧
    (dict_get (resolve_route c3_defaults c3_table (some 7)) "model" = PyVal.str "base" ∧
      dict_get (resolve_route c3_defaults c3_table (some 7)) "timeout" = PyVal.num 10) := by
  refine ⟨?_, ?_, ?_, ?_, ?_⟩
  · intro d station_id; rfl
  · intro d table i c hget hne
    cases table with
    | nil => simp [table_get] at hget
    | cons hd tl =>
      cases c with
      | nil => exact absurd rfl hne
      | cons x xs => simp [resolve_route, hget]
  · intro d table i hget
    cases table with
    | nil => rfl
    | cons hd tl => simp [resolve_route, hget]
  · constructor <;>
      norm_num [resolve_route, defaults_dict, c3_defaults, c3_table, table_get,
        int_str, nat_str, nat_digits, merge_route, dict_set, dict_get, py_float,
        py_or_entry, normalise_bool, List.foldl, String.ext_iff] <;> simp
  · constructor <;>
      norm_num [resolve_route, defaults_dict, c3_defaults, c3_table, table_get,
        int_str, nat_str, nat_digits, merge_route, dict_set, dict_get, py_float,
        py_or_entry, normalise_bool, List.foldl, String.ext_iff] <;> simp

/-- `C3_routing_resolution`'s exact-match conjunct at the example table. -/
theorem C3_witness :
    resolve_route c3_defaults c3_table (some 42) =
      merge_route (defaults_dict c3_defaults) [("model", PyVal.str "x")] := by
  refine C3_routing_resolution.2.1 c3_defaults c3_table 42 [("model", PyVal.str "x")]
    ?_ (by simp)
  norm_num [c3_table, table_get, int_str, nat_str, nat_digits, String.ext_iff]

/-- C4 counterexample: a `force_json` override carrying the unrecognized
token "maybe" resolves to `True`, not `False` as the claim states. -/
theorem C4_counterexample :
    dict_get (resolve_route c3_defaults c4_table (some 42)) "force_json" =
      PyVal.bool true ∧
    ¬ dict_get (resolve_route c3_defaults c4_table (some 42)) "force_json" =
      PyVal.bool false := by
  have h : dict_get (resolve_route c3_defaults c4_table (some 42)) "force_json" =
      PyVal.bool true := by
    norm_num [resolve_route, defaults_dict, c3_defaults, c4_table, table_get,
      int_str, nat_str, nat_digits, merge_route, dict_set, dict_get, py_float,
      py_or_entry, normalise_bool, falsy_tokens, py_str, py_lower, lower_char,
      List.foldl, String.ext_iff]
    simp
  exact ⟨h, by rw [h]; simp⟩

/-- C4 (amended): the resolved boolean passes booleans through, treats
`None`/absent as false, and otherwise compares `str(value).lower()` against
the falsy token set {"false", "0", "no"}: recognized falsy tokens give false
and every other token gives true. -/
theorem C4_force_json_amended :
    (∀ (d : RouteDefaults) (s : String),
        dict_get (resolve_route d [("*", [("force_json", PyVal.str s)])] none)
            "force_json" =
          PyVal.bool (!(falsy_tokens.contains (py_lower s)))) ∧
    normalise_bool PyVal.null = false ∧
    (∀ b, normalise_bool (PyVal.bool b) = b) ∧
    (∀ s, normalise_bool (PyVal.str s) = !(falsy_tokens.contains (py_lower s))) := by
  refine ⟨?_, rfl, fun b => rfl, fun s => rfl⟩
  intro d s
  simp [resolve_route, defaults_dict, table_get, merge_route, dict_set, dict_get,
    py_or_entry, normalise_bool, py_str, List.foldl, String.ext_iff]

lemma append_right_ne_empty (a b : String) (hb : b ≠ "") : a ++ b ≠ "" := by
  intro h
  apply hb
  have hd := congrArg String.data h
  simp only [String.data_append] at hd
  rcases List.append_eq_nil.mp (by simpa using hd) with ⟨_, h2⟩
  apply String.ext
  simpa using h2

lemma py_join_space_ne_empty (a : String) (l : List String) (ha : a ≠ "") :
    py_join " " (a :: l) ≠ "" := by
  cases l with
  | nil => simpa [py_join]
  | cons b t =>
    intro h
    have hd := congrArg String.data h
    simp [py_join, String.data_append, List.append_eq_nil] at hd

/-- C1: when the remote LLM call fails for any reason (`llm_response = none`),
`generate_report` returns the deterministic fallback report without raising,
and that fallback has non-empty summary, insights and actions for every
station dict, recommendation list and optional parcel summary.  Determinism
is inherent: `fallback_report` is a pure function of its three inputs. -/
theorem C1_fallback_on_remote_failure (station : List (String × PyVal))
    (recs : List (List (String × PyVal))) (ps : Option ParcelSummary) :
    generate_report station recs ps none =
      Except.ok (fallback_report station recs ps) ∧
    (fallback_report station recs ps).summary ≠ "" ∧
    (fallback_report station recs ps).insights ≠ [] ∧
    (fallback_report station recs ps).actions ≠ [] := by
  refine ⟨rfl, ?_, ?_, ?_⟩
  · simp only [fallback_report]
    apply py_join_space_ne_empty
    apply append_right_ne_empty
    decide
  · simp [fallback_report]
  · simp [fallback_report]

/-- C5: a fenced `json`-tagged code-block response parses to
{summary: "s", insights: [], actions: []}; a non-JSON response is unusable;
and whenever `_parse_llm_response` deems a response unusable (JSON error or
all three fields empty), `generate_report` returns the deterministic
fallback. -/
theorem C5_fenced_parse_and_unusable_fallback :
    parse_llm_response
        "```json\n\x7b\"summary\":\"s\",\"insights\":[],\"actions\":[]\x7d\n```" =
      Except.ok (some ⟨"s", [], []⟩) ∧
    parse_llm_response "not json" = Except.ok none ∧
    ∀ (station : List (String × PyVal)) (recs : List (List (String × PyVal)))
      (ps : Option ParcelSummary) (content : String),
      parse_llm_response content = Except.ok none →
        generate_report station recs ps (some content) =
          Except.ok (fallback_report station recs ps) := by
  refine ⟨by rfl, by rfl, ?_⟩
  intro station recs ps content h
  by_cases hc : content = ""
  · simp [generate_report, hc]
  · simp [generate_report, hc, h]

/-- `C5_fenced_parse_and_unusable_fallback` applied at the all-empty
response `"{}"`. -/
theorem C5_witness :
    parse_llm_response "\x7b\x7d" = Except.ok none ∧
      generate_report [] [] none (some "\x7b\x7d") =
        Except.ok (fallback_report [] [] none) := by
  have h : parse_llm_response "\x7b\x7d" = Except.ok none := by rfl
  exact ⟨h, C5_fenced_parse_and_unusable_fallback.2.2 [] [] none _ h⟩

lemma state_preserved_refl (st : ParcelServiceState) : state_preserved st st :=
  ⟨fun _ _ h => h, id, id⟩

lemma state_preserved_trans {a b c : ParcelServiceState}
    (h1 : state_preserved a b) (h2 : state_preserved b c) : state_preserved a c :=
  ⟨fun k g h => h2.1 k g (h1.1 k g h), fun h => h2.2.1 (h1.2.1 h),
    fun h => h2.2.2 (h1.2.2 h)⟩

lemma state_preserved_record_error (st : ParcelServiceState) (msg : String) :
    state_preserved st (record_error st msg) :=
  ⟨fun _ _ h => h, id, id⟩

lemma lookup_append_of_some (l1 l2 : List (String × List Row)) (k : String)
    (v : List Row) (h : List.lookup k l1 = some v) :
    List.lookup k (l1 ++ l2) = some v := by
  induction l1 with
  | nil => simp [List.lookup] at h
  | cons a t ih =>
    obtain ⟨ka, va⟩ := a
    simp only [List.lookup, List.cons_append] at h ⊢
    cases hk : k == ka with
    | true => simp only [hk] at h ⊢; exact h
    | false => simp only [hk] at h ⊢; exact ih h

lemma load_parcels_preserves (fs : FS) (st : ParcelServiceState) (code : String) :
    state_preserved st (load_parcels fs st code).1 := by
  unfold load_parcels
  cases hcc : List.lookup code st.cache with
  | some g => simp only [hcc]; exact state_preserved_refl st
  | none =>
    simp only [hcc]
    cases hfo : fs.folder_ok code with
    | false =>
      simp only [hfo, Bool.not_false, if_true]
      exact state_preserved_refl st
    | true =>
      simp only [hfo, Bool.not_true, Bool.false_eq_true, if_false]
      cases hshp : (fs.listdir code).filter ends_with_shp with
      | nil => simp only [hshp]; exact state_preserved_refl st
      | cons f rest =>
        simp only [hshp]
        cases hread : fs.read_shp code f with
        | error e => simp only [hread]; exact state_preserved_refl st
        | ok gdf =>
          simp only [hread]
          cases hemp : gdf.isEmpty with
          | true =>
            simp only [hemp, if_true]
            refine ⟨fun k g h => lookup_append_of_some _ _ k g h, fun h => h, ?_⟩
            intro _
            cases st.cache <;> simp
          | false =>
            simp only [hemp, Bool.false_eq_true, if_false]
            refine ⟨fun k g h => lookup_append_of_some _ _ k g h, fun _ => rfl, ?_⟩
            intro _
            cases st.cache <;> simp

lemma ensure_loop_preserves (fs : FS) :
    ∀ (entries : List String) (st : ParcelServiceState),
      state_preserved st (ensure_loop fs st entries) := by
  intro entries
  induction entries with
  | nil => intro st; exact state_preserved_refl st
  | cons e rest ih =>
    intro st
    unfold ensure_loop
    cases hdir : fs.is_dir e with
    | false =>
      simp only [hdir, Bool.false_eq_true, if_false]
      exact ih st
    | true =>
      simp only [hdir, if_true]
      rcases hl : load_parcels fs st e with ⟨st1, res⟩
      have hpres : state_preserved st st1 := by
        have h := load_parcels_preserves fs st e
        rw [hl] at h
        exact h
      cases res with
      | ok g => simp only [hl]; exact hpres
      | error exc =>
        simp only [hl]
        exact state_preserved_trans
          (state_preserved_trans hpres (state_preserved_record_error st1 _)) (ih _)

lemma ensure_any_dataset_preserves (fs : FS) (st : ParcelServiceState) :
    state_preserved st (ensure_any_dataset fs st) := by
  unfold ensure_any_dataset
  cases hce : st.cache.isEmpty with
  | false =>
    simp only [hce, Bool.not_false, if_true]
    exact state_preserved_refl st
  | true =>
    simp only [hce, Bool.not_true, Bool.false_eq_true, if_false]
    cases hbd : fs.base_dir_exists with
    | false =>
      simp only [hbd, Bool.not_false, if_true]
      exact state_preserved_record_error st _
    | true =>
      simp only [hbd, Bool.not_true, Bool.false_eq_true, if_false]
      cases hs1 : (ensure_loop fs st fs.entries).cache.isEmpty with
      | true =>
        simp only [hs1, if_true]
        exact state_preserved_trans (ensure_loop_preserves fs fs.entries st)
          (state_preserved_record_error _ _)
      | false =>
        simp only [hs1, Bool.false_eq_true, if_false]
        exact ensure_loop_preserves fs fs.entries st

lemma nearby_loop_state (pt : ℚ × ℚ) (radius : ℚ) :
    ∀ (l : List (String × List Row)) (st : ParcelServiceState),
      (nearby_loop pt radius st l).1.cache = st.cache ∧
        (nearby_loop pt radius st l).1.is_loaded_flag = st.is_loaded_flag := by
  intro l
  induction l with
  | nil => intro st; exact ⟨rfl, rfl⟩
  | cons a rest ih =>
    intro st
    obtain ⟨code, gdf⟩ := a
    unfold nearby_loop
    cases hrf : region_filter gdf pt radius with
    | none =>
      simp only [hrf]
      exact ih (record_error st _)
    | some nearby =>
      simp only [hrf]
      rcases hl : nearby_loop pt radius st rest with ⟨st1, acc⟩
      have h := ih st
      rw [hl] at h
      cases hne : nearby.isEmpty <;> simp only [hl, hne, if_true, if_false] <;> exact h

lemma get_nearby_parcels_preserves (fs : FS) (st : ParcelServiceState)
    (lat lng radius : ℚ) :
    state_preserved st (get_nearby_parcels fs st lat lng radius).1 := by
  unfold get_nearby_parcels
  have h1 := ensure_any_dataset_preserves fs st
  cases hce : (ensure_any_dataset fs st).cache.isEmpty with
  | true =>
    simp only [hce, if_true]
    exact h1
  | false =>
    simp only [hce, Bool.false_eq_true, if_false]
    rcases hl : nearby_loop (lng, lat) radius (ensure_any_dataset fs st)
        (ensure_any_dataset fs st).cache with ⟨st2, results⟩
    have h2 := nearby_loop_state (lng, lat) radius (ensure_any_dataset fs st).cache
      (ensure_any_dataset fs st)
    rw [hl] at h2
    simp only [hl]
    refine state_preserved_trans h1 ⟨?_, ?_, ?_⟩
    · intro k g hk; rw [h2.1]; exact hk
    · intro hf; rw [h2.2]; exact hf
    · intro hc; rw [h2.1]; exact hc

lemma is_loaded_of_preserved {st st2 : ParcelServiceState}
    (hp : state_preserved st st2) (h : is_loaded st = true) : is_loaded st2 = true := by
  unfold is_loaded at h ⊢
  rw [Bool.and_eq_true] at h ⊢
  refine ⟨hp.2.1 h.1, ?_⟩
  rw [Bool.not_eq_true'] at h ⊢
  exact hp.2.2 h.2

/-- C10: once `is_loaded` is true it stays true across `load_parcels`,
`_ensure_any_dataset` and `get_nearby_parcels`; cached region datasets are
never removed or replaced, and the internal loaded flag is never reset. -/
theorem C10_loaded_is_stable :
    (∀ (fs : FS) (st : ParcelServiceState) (code : String),
        is_loaded st = true → is_loaded (load_parcels fs st code).1 = true) ∧
    (∀ (fs : FS) (st : ParcelServiceState) (code k : String) (g : List Row),
        List.lookup k st.cache = some g →
          List.lookup k (load_parcels fs st code).1.cache = some g) ∧
    (∀ (fs : FS) (st : ParcelServiceState) (code : String),
        st.is_loaded_flag = true → (load_parcels fs st code).1.is_loaded_flag = true) ∧
    (∀ (fs : FS) (st : ParcelServiceState),
        is_loaded st = true → is_loaded (ensure_any_dataset fs st) = true) ∧
    (∀ (fs : FS) (st : ParcelServiceState) (k : String) (g : List Row),
        List.lookup k st.cache = some g →
          List.lookup k (ensure_any_dataset fs st).cache = some g) ∧
    (∀ (fs : FS) (st : ParcelServiceState),
        st.is_loaded_flag = true → (ensure_any_dataset fs st).is_loaded_flag = true) ∧
    (∀ (fs : FS) (st : ParcelServiceState) (lat lng radius : ℚ),
        is_loaded st = true →
          is_loaded (get_nearby_parcels fs st lat lng radius).1 = true) ∧
    (∀ (fs : FS) (st : ParcelServiceState) (lat lng radius : ℚ) (k : String)
        (g : List Row),
        List.lookup k st.cache = some g →
          List.lookup k (get_nearby_parcels fs st lat lng radius).1.cache = some g) ∧
    (∀ (fs : FS) (st : ParcelServiceState) (lat lng radius : ℚ),
        st.is_loaded_flag = true →
          (get_nearby_parcels fs st lat lng radius).1.is_loaded_flag = true) := by
  refine ⟨?_, ?_, ?_, ?_, ?_, ?_, ?_, ?_, ?_⟩
  · intro fs st code h
    exact is_loaded_of_preserved (load_parcels_preserves fs st code) h
  · intro fs st code k g h
    exact (load_parcels_preserves fs st code).1 k g h
  · intro fs st code h
    exact (load_parcels_preserves fs st code).2.1 h
  · intro fs st h
    exact is_loaded_of_preserved (ensure_any_dataset_preserves fs st) h
  · intro fs st k g h
    exact (ensure_any_dataset_preserves fs st).1 k g h
  · intro fs st h
    exact (ensure_any_dataset_preserves fs st).2.1 h
  · intro fs st lat lng radius h
    exact is_loaded_of_preserved (get_nearby_parcels_preserves fs st lat lng radius) h
  · intro fs st lat lng radius k g h
    exact (get_nearby_parcels_preserves fs st lat lng radius).1 k g h
  · intro fs st lat lng radius h
    exact (get_nearby_parcels_preserves fs st lat lng radius).2.1 h

/-- `C10_loaded_is_stable` applied to a loaded state across all three
operations. -/
theorem C10_witness :
    is_loaded st_loaded = true ∧
      is_loaded (load_parcels fs_missing st_loaded "22").1 = true ∧
      List.lookup "11" (load_parcels fs_missing st_loaded "22").1.cache =
        some gdf_one ∧
      is_loaded (ensure_any_dataset fs_missing st_loaded) = true ∧
      is_loaded (get_nearby_parcels fs_missing st_loaded 1 2 3).1 = true := by
  have h1 : is_loaded st_loaded = true := rfl
  have h2 : List.lookup "11" st_loaded.cache = some gdf_one := rfl
  exact ⟨h1, C10_loaded_is_stable.1 fs_missing st_loaded "22" h1,
    C10_loaded_is_stable.2.1 fs_missing st_loaded "22" "11" gdf_one h2,
    C10_loaded_is_stable.2.2.2.1 fs_missing st_loaded h1,
    C10_loaded_is_stable.2.2.2.2.2.2.1 fs_missing st_loaded 1 2 3 h1⟩

/-- C6: `get_nearby_parcels` called before any load attempt against a
non-existent base directory returns an empty result without raising and
records the missing-base-path diagnostic in `last_error`. -/
theorem C6_nearby_missing_base_dir (fs : FS) (bd : String) (lat lng radius : ℚ)
    (h : fs.base_dir_exists = false) :
    get_nearby_parcels fs ⟨bd, [], false, none⟩ lat lng radius =
      (⟨bd, [], false, some ("지적도 기본 경로가 존재하지 않습니다: " ++ bd)⟩, []) := by
  simp [get_nearby_parcels, ensure_any_dataset, record_error, h]

/-- `C6_nearby_missing_base_dir` at a concrete filesystem and fresh state. -/
theorem C6_witness :
    get_nearby_parcels fs_missing st_init 1 2 (3 / 1000) =
      (⟨"data/parcels", [], false,
          some ("지적도 기본 경로가 존재하지 않습니다: " ++ "data/parcels")⟩, []) :=
  C6_nearby_missing_base_dir fs_missing "data/parcels" 1 2 (3 / 1000) rfl
